import Mathlib

/-!
Shallow embedding of the chat persistence/query logic of the aidardev-server
repository (src/src/chats/chats.service.ts together with the entities in
src/src/entities and the DTOs).  The database is modelled as an explicit
state value (lists of chat rows and message rows plus id counters and a
clock); every service method becomes a pure function from that state.
JavaScript string truthiness (`if (x)` on an optional string) is modelled by
`truthyStr`; `a || b` defaulting on optional values is modelled by `Option.getD`
(for booleans and numbers the two coincide value-by-value).  Timestamps are
modelled as integers (epoch milliseconds); JS `number` statistics are
idealised as rationals.
-/

namespace AidarDev

/-- JS truthiness of an optional string: `undefined`, `null` and `""` are
falsy, every other string is truthy. -/
def truthyStr (o : Option String) : Bool :=
  match o with
  | none => false
  | some s => s != ""

/-- `o || d` for an optional string, as in `createChatDto.language || 'ru'`. -/
def jsStrOr (o : Option String) (d : String) : String :=
  match o with
  | none => d
  | some s => if s != "" then s else d

/-! ## Entities (src/src/entities) -/

/-- `ChatStatus` enum from chat.entity.ts. -/
inductive ChatStatus
  | new
  | contacted
  | in_progress
  | completed
  | archived
deriving DecidableEq

/-- `MessageSender` type from chat-message.entity.ts: `'bot' | 'user'`. -/
inductive MessageSender
  | bot
  | user
deriving DecidableEq

/-- One row of the `chats` table (chat.entity.ts). -/
structure Chat where
  id : Nat
  createdAt : Int
  updatedAt : Int
  phone : Option String
  name : Option String
  projectType : Option String
  language : String
  messageCount : Nat
  hasPriceObjection : Bool
  hasNegativeResponse : Bool
  hasName : Bool
  askedForContact : Bool
  hasUncertainty : Bool
  uncertaintyCount : Int
  status : ChatStatus
  notes : Option String
  userAgent : Option String
  ipAddress : Option String
deriving DecidableEq

/-- One row of the `chat_messages` table (chat-message.entity.ts).
`createdAt` carries the caller-supplied message time. -/
structure ChatMessage where
  id : Nat
  chatId : Nat
  sender : MessageSender
  text : String
  createdAt : Int
deriving DecidableEq

/-- The relational store: the two tables, fresh-id counters standing in for
uuid generation, and the current time used by `@CreateDateColumn` /
`@UpdateDateColumn`. -/
structure DB where
  chats : List Chat
  messages : List ChatMessage
  nextChatId : Nat
  nextMsgId : Nat
  now : Int
deriving DecidableEq

/-- Store well-formedness: every stored id was generated by the counters. -/
def DB.WF (db : DB) : Prop :=
  (∀ c ∈ db.chats, c.id < db.nextChatId) ∧
  (∀ m ∈ db.messages, m.id < db.nextMsgId) ∧
  (∀ m ∈ db.messages, m.chatId < db.nextChatId)

instance (db : DB) : Decidable db.WF := by
  unfold DB.WF; infer_instance

/-! ## DTOs (create-chat.dto.ts) -/

/-- `MessageDto`: one submitted message; `time` is the parsed ISO timestamp. -/
structure MessageDto where
  sender : MessageSender
  text : String
  time : Int
deriving DecidableEq

/-- `MetricsDto`: caller-computed metrics. -/
structure MetricsDto where
  messageCount : Int
  hasPriceObjection : Bool
  hasNegativeResponse : Bool
  hasName : Bool
  askedForContact : Bool
  hasUncertainty : Bool
  uncertaintyCount : Int
deriving DecidableEq

/-- `CreateChatDto`: the transcript save request.  `messages` is `Option` so
that an absent list (rejected by the `!createChatDto.messages` guard) is
representable. -/
structure CreateChatDto where
  timestamp : Int
  phone : Option String := none
  name : Option String := none
  projectType : Option String := none
  messages : Option (List MessageDto) := none
  metrics : Option MetricsDto := none
  language : Option String := none
  userAgent : Option String := none
  ipAddress : Option String := none
  chatId : Option Nat := none
deriving DecidableEq

/-- Result of a save: `{ chatId, updated }`. -/
structure SaveResult where
  chatId : Nat
  updated : Bool
deriving DecidableEq

/-- Errors thrown by the service: `BadRequestException` / `NotFoundException`. -/
inductive ChatError
  | badRequest
  | notFound
deriving DecidableEq

/-! ## Write path (chats.service.ts, createChat / createNewChat /
updateExistingChat) -/

/-- `messages.map(msg => messageRepository.create({...}))` followed by
`messageRepository.save`: each created row gets the owning chat's id, the
submitted sender/text, `createdAt` from the submitted time, and a fresh
sequential row id. -/
def insertMsgs (cid : Nat) (startId : Nat) : List MessageDto → List ChatMessage
  | [] => []
  | m :: rest =>
    { id := startId, chatId := cid, sender := m.sender, text := m.text,
      createdAt := m.time } :: insertMsgs cid (startId + 1) rest

/-- The field mutations `updateExistingChat` performs on the loaded chat row
before saving it (lines 114-151 of chats.service.ts), including the
`@UpdateDateColumn` refresh of `updatedAt` on save. -/
def applyDtoFields (dto : CreateChatDto) (ms : List MessageDto) (now : Int)
    (existingChat : Chat) : Chat :=
  -- phone: update if it was empty and is now given, else update whenever given
  let c1 := if !truthyStr existingChat.phone && truthyStr dto.phone then
      { existingChat with phone := dto.phone }
    else if truthyStr dto.phone then
      { existingChat with phone := dto.phone }
    else existingChat
  let c2 := if !truthyStr c1.name && truthyStr dto.name then
      { c1 with name := dto.name }
    else if truthyStr dto.name then
      { c1 with name := dto.name }
    else c1
  let c3 := if !truthyStr c2.projectType && truthyStr dto.projectType then
      { c2 with projectType := dto.projectType }
    else if truthyStr dto.projectType then
      { c2 with projectType := dto.projectType }
    else c2
  -- metrics and messageCount: always replaced, `metrics?.x || false/0`
  let c4 := { c3 with
    messageCount := ms.length
    hasPriceObjection := (dto.metrics.map (fun (m : MetricsDto) => m.hasPriceObjection)).getD false
    hasNegativeResponse := (dto.metrics.map (fun (m : MetricsDto) => m.hasNegativeResponse)).getD false
    hasName := (dto.metrics.map (fun (m : MetricsDto) => m.hasName)).getD false
    askedForContact := (dto.metrics.map (fun (m : MetricsDto) => m.askedForContact)).getD false
    hasUncertainty := (dto.metrics.map (fun (m : MetricsDto) => m.hasUncertainty)).getD false
    uncertaintyCount := (dto.metrics.map (fun (m : MetricsDto) => m.uncertaintyCount)).getD 0 }
  -- language: update if given
  let c5 := match dto.language with
    | some l => if l != "" then { c4 with language := l } else c4
    | none => c4
  { c5 with updatedAt := now }

/-- The fresh chat row `createNewChat` builds with
`chatRepository.create({...})` (lines 59-75). -/
def newChatRecord (db : DB) (dto : CreateChatDto) : Chat := {
  id := db.nextChatId
  createdAt := db.now
  updatedAt := db.now
  phone := dto.phone
  name := dto.name
  projectType := dto.projectType
  language := jsStrOr dto.language "ru"
  messageCount := (dto.messages.getD []).length
  hasPriceObjection := (dto.metrics.map (fun (m : MetricsDto) => m.hasPriceObjection)).getD false
  hasNegativeResponse := (dto.metrics.map (fun (m : MetricsDto) => m.hasNegativeResponse)).getD false
  hasName := (dto.metrics.map (fun (m : MetricsDto) => m.hasName)).getD false
  askedForContact := (dto.metrics.map (fun (m : MetricsDto) => m.askedForContact)).getD false
  hasUncertainty := (dto.metrics.map (fun (m : MetricsDto) => m.hasUncertainty)).getD false
  uncertaintyCount := (dto.metrics.map (fun (m : MetricsDto) => m.uncertaintyCount)).getD 0
  status := ChatStatus.new
  notes := none
  userAgent := dto.userAgent
  ipAddress := dto.ipAddress }

/-- `createNewChat` (lines 57-92): build a fresh chat row from the request,
save it, then save all submitted messages tagged with the new id. -/
def createNewChat (db : DB) (dto : CreateChatDto) : DB × SaveResult :=
  let ms := dto.messages.getD []
  let chat := newChatRecord db dto
  let newMsgs := insertMsgs chat.id db.nextMsgId ms
  ({ db with
      chats := db.chats ++ [chat]
      messages := db.messages ++ newMsgs
      nextChatId := db.nextChatId + 1
      nextMsgId := db.nextMsgId + ms.length },
   { chatId := chat.id, updated := false })

/-- `updateExistingChat` (lines 104-169): load the chat (404 when absent),
apply the field mutations, save, delete every message of the chat, then
re-insert the full submitted list. -/
def updateExistingChat (db : DB) (dto : CreateChatDto) :
    DB × Except ChatError SaveResult :=
  let cid := dto.chatId.getD 0
  match db.chats.find? (fun c => c.id == cid) with
  | none => (db, Except.error ChatError.notFound)
  | some existingChat =>
    let ms := dto.messages.getD []
    let updatedChat := applyDtoFields dto ms db.now existingChat
    let chats2 := db.chats.map (fun c => if c.id == existingChat.id then updatedChat else c)
    let kept := db.messages.filter (fun m => !(m.chatId == existingChat.id))
    let newMsgs := insertMsgs existingChat.id db.nextMsgId ms
    ({ db with
        chats := chats2
        messages := kept ++ newMsgs
        nextMsgId := db.nextMsgId + ms.length },
     Except.ok { chatId := existingChat.id, updated := true })

/-- `createChat` (lines 39-52): reject fewer than two messages, then route to
update (when `chatId` given) or create. -/
def createChat (db : DB) (dto : CreateChatDto) : DB × Except ChatError SaveResult :=
  match dto.messages with
  | none => (db, Except.error ChatError.badRequest)
  | some ms =>
    if ms.length < 2 then (db, Except.error ChatError.badRequest)
    else
      match dto.chatId with
      | some _ => updateExistingChat db dto
      | none =>
        let r := createNewChat db dto
        (r.1, Except.ok r.2)

/-! ## Read path (chats.service.ts, getChatById / updateChat) -/

/-- Element of the `messages` array in the `getChatById` response. -/
structure MsgView where
  id : Nat
  sender : MessageSender
  text : String
  createdAt : Int
deriving DecidableEq

/-- The `metrics` block of the `getChatById` response. -/
structure MetricsView where
  messageCount : Nat
  hasPriceObjection : Bool
  hasNegativeResponse : Bool
  hasName : Bool
  askedForContact : Bool
  hasUncertainty : Bool
  uncertaintyCount : Int
deriving DecidableEq

/-- The `getChatById` response shape. -/
structure ChatDetail where
  id : Nat
  createdAt : Int
  updatedAt : Int
  phone : Option String
  name : Option String
  projectType : Option String
  status : ChatStatus
  notes : Option String
  metrics : MetricsView
  language : String
  messages : List MsgView
deriving DecidableEq

/-- Ascending order on messages used by
`chat.messages.sort((a, b) => a.createdAt.getTime() - b.createdAt.getTime())`. -/
def msgAsc (a b : ChatMessage) : Prop := a.createdAt ≤ b.createdAt

instance : DecidableRel msgAsc := fun a b =>
  inferInstanceAs (Decidable (a.createdAt ≤ b.createdAt))

instance : IsTotal ChatMessage msgAsc := ⟨fun a b => le_total a.createdAt b.createdAt⟩

instance : IsTrans ChatMessage msgAsc := ⟨fun _ _ _ h h2 => le_trans h h2⟩

/-- `getChatById` (lines 326-367): load the chat with its messages (404 when
absent), sort the messages ascending by their timestamps, shape the detail
view. -/
def getChatById (db : DB) (id : Nat) : Except ChatError ChatDetail :=
  match db.chats.find? (fun c => c.id == id) with
  | none => Except.error ChatError.notFound
  | some chat =>
    let loaded := db.messages.filter (fun m => m.chatId == chat.id)
    let sorted := List.insertionSort msgAsc loaded
    Except.ok {
      id := chat.id
      createdAt := chat.createdAt
      updatedAt := chat.updatedAt
      phone := chat.phone
      name := chat.name
      projectType := chat.projectType
      status := chat.status
      notes := chat.notes
      metrics := {
        messageCount := chat.messageCount
        hasPriceObjection := chat.hasPriceObjection
        hasNegativeResponse := chat.hasNegativeResponse
        hasName := chat.hasName
        askedForContact := chat.askedForContact
        hasUncertainty := chat.hasUncertainty
        uncertaintyCount := chat.uncertaintyCount }
      language := chat.language
      messages := sorted.map (fun m =>
        { id := m.id, sender := m.sender, text := m.text, createdAt := m.createdAt }) }

/-- `UpdateChatDto` (update-chat.dto.ts): both fields optional; `none` models
an absent (`undefined`) field. -/
structure UpdateChatDto where
  status : Option ChatStatus := none
  notes : Option String := none
deriving DecidableEq

/-- The two conditional mutations of `updateChat` plus the
`@UpdateDateColumn` refresh on save: set `status` when given
(`if (updateChatDto.status)` — every enum value is truthy); set `notes`
whenever the field is present (`if (updateChatDto.notes !== undefined)`),
including an empty string. -/
def applyAdminFields (dto : UpdateChatDto) (now : Int) (chat : Chat) : Chat :=
  let c1 := match dto.status with
    | some s => { chat with status := s }
    | none => chat
  let c2 := match dto.notes with
    | some n => { c1 with notes := some n }
    | none => c1
  { c2 with updatedAt := now }

/-- `updateChat` (lines 373-390): load the chat (404 when absent), apply the
admin mutations, save. -/
def updateChat (db : DB) (id : Nat) (dto : UpdateChatDto) :
    DB × Except ChatError Unit :=
  match db.chats.find? (fun c => c.id == id) with
  | none => (db, Except.error ChatError.notFound)
  | some chat =>
    let c3 := applyAdminFields dto db.now chat
    ({ db with chats := db.chats.map (fun c => if c.id == chat.id then c3 else c) },
     Except.ok ())

/-! ## Listing (chats.service.ts, getChats; get-chats-query.dto.ts) -/

/-- `SortBy` values understood by the service's `sortColumnMap`. -/
inductive SortBy
  | created_at
  | updated_at
  | message_count
  | name
  | phone
  | status
deriving DecidableEq

/-- `SortOrder` values. -/
inductive SortOrder
  | asc
  | desc
deriving DecidableEq

/-- `GetChatsQueryDto` after validation, with the service-side defaults for
`page`, `limit`, `sortBy`, `sortOrder` already applied (the service
destructures with those defaults).  `dateFrom`/`dateTo` are the parsed
timestamps. -/
structure GetChatsQuery where
  page : Nat := 1
  limit : Nat := 20
  status : Option ChatStatus := none
  search : Option String := none
  sortBy : SortBy := SortBy.created_at
  sortOrder : SortOrder := SortOrder.desc
  dateFrom : Option Int := none
  dateTo : Option Int := none
  hasPhone : Option Bool := none
  hasName : Option Bool := none
deriving DecidableEq

/-- Case-insensitive substring test modelling SQL `col ILIKE '%search%'`;
on a NULL column the SQL predicate is not satisfied. -/
def ilike (col : Option String) (search : String) : Bool :=
  match col with
  | none => false
  | some s =>
    (s.toLower.toList.tails).any (fun t => search.toLower.toList.isPrefixOf t)

/-- `if (status) andWhere('chat.status = :status')` (lines 198-200). -/
def statusFilter (qs : Option ChatStatus) (c : Chat) : Bool :=
  match qs with
  | some s => c.status == s
  | none => true

/-- `if (hasPhone !== undefined)` — `chat.phone IS NOT NULL` when true,
`chat.phone IS NULL` when false (lines 202-208). -/
def phoneFilter (qp : Option Bool) (c : Chat) : Bool :=
  match qp with
  | some true => c.phone.isSome
  | some false => c.phone.isNone
  | none => true

/-- `if (hasName !== undefined) andWhere('chat.hasName = :hasName')`
(lines 210-212) — an equality test on the boolean metric column. -/
def nameFilter (qn : Option Bool) (c : Chat) : Bool :=
  match qn with
  | some b => c.hasName == b
  | none => true

/-- The created-at range filter (lines 215-224): inclusive BETWEEN when both
bounds are given, one-sided comparison for a single bound. -/
def dateFilter (f t : Option Int) (c : Chat) : Bool :=
  match f, t with
  | some lo, some hi => decide (lo ≤ c.createdAt) && decide (c.createdAt ≤ hi)
  | some lo, none => decide (lo ≤ c.createdAt)
  | none, some hi => decide (c.createdAt ≤ hi)
  | none, none => true

/-- The three-column ILIKE search (lines 227-232). -/
def searchFilter (qs : Option String) (c : Chat) : Bool :=
  match qs with
  | some s => ilike c.name s || ilike c.phone s || ilike c.projectType s
  | none => true

/-- The conjunction of `andWhere` filters that `getChats` builds
(lines 198-232). -/
def chatMatches (q : GetChatsQuery) (c : Chat) : Bool :=
  statusFilter q.status c && phoneFilter q.hasPhone c && nameFilter q.hasName c &&
    dateFilter q.dateFrom q.dateTo c && searchFilter q.search c

/-- The string the `status` column stores for each enum value. -/
def statusStr : ChatStatus → String
  | ChatStatus.new => "new"
  | ChatStatus.contacted => "contacted"
  | ChatStatus.in_progress => "in_progress"
  | ChatStatus.completed => "completed"
  | ChatStatus.archived => "archived"

/-- Direction-aware comparison on integers. -/
def dirLe (o : SortOrder) (x y : Int) : Bool :=
  match o with
  | SortOrder.asc => decide (x ≤ y)
  | SortOrder.desc => decide (y ≤ x)

/-- Direction-aware comparison on strings (database collation idealised as
the code-point order). -/
def dirLeStr (o : SortOrder) (x y : String) : Bool :=
  match o with
  | SortOrder.asc => !decide (y < x)
  | SortOrder.desc => !decide (x < y)

/-- Sort key handling for the nullable columns: the
`CASE WHEN col IS NULL THEN 1 ELSE 0 END` primary key. -/
def nullKey (o : Option String) : Nat := if o.isSome then 0 else 1

/-- The `ORDER BY` comparison `getChats` sets up (lines 234-256): nullable
text columns sort NULLs via `nullKey` first, then by value in the requested
direction; the other columns sort directly in the requested direction. -/
def chatLeB (q : GetChatsQuery) (a b : Chat) : Bool :=
  match q.sortBy with
  | SortBy.created_at => dirLe q.sortOrder a.createdAt b.createdAt
  | SortBy.updated_at => dirLe q.sortOrder a.updatedAt b.updatedAt
  | SortBy.message_count => dirLe q.sortOrder a.messageCount b.messageCount
  | SortBy.name =>
    if nullKey a.name != nullKey b.name then decide (nullKey a.name ≤ nullKey b.name)
    else dirLeStr q.sortOrder (a.name.getD "") (b.name.getD "")
  | SortBy.phone =>
    if nullKey a.phone != nullKey b.phone then decide (nullKey a.phone ≤ nullKey b.phone)
    else dirLeStr q.sortOrder (a.phone.getD "") (b.phone.getD "")
  | SortBy.status => dirLeStr q.sortOrder (statusStr a.status) (statusStr b.status)

/-- `chatLeB` as a relation, for `List.insertionSort`. -/
def chatOrder (q : GetChatsQuery) (a b : Chat) : Prop := chatLeB q a b = true

instance (q : GetChatsQuery) : DecidableRel (chatOrder q) := fun a b =>
  inferInstanceAs (Decidable (chatLeB q a b = true))

/-- Descending order on message timestamps used by the batched
`order: { createdAt: 'DESC' }` fetch. -/
def msgDesc (a b : ChatMessage) : Prop := b.createdAt ≤ a.createdAt

instance : DecidableRel msgDesc := fun a b =>
  inferInstanceAs (Decidable (b.createdAt ≤ a.createdAt))

instance : IsTotal ChatMessage msgDesc := ⟨fun a b => le_total b.createdAt a.createdAt⟩

instance : IsTrans ChatMessage msgDesc := ⟨fun _ _ _ h h2 => le_trans h2 h⟩

/-- The `lastMessage` block of a chat summary. -/
structure LastMsgView where
  text : String
  sender : MessageSender
  time : Int
deriving DecidableEq

/-- One formatted chat summary of the listing response. -/
structure ChatSummary where
  id : Nat
  createdAt : Int
  updatedAt : Int
  phone : Option String
  name : Option String
  projectType : Option String
  messageCount : Nat
  status : ChatStatus
  hasPriceObjection : Bool
  hasNegativeResponse : Bool
  hasName : Bool
  askedForContact : Bool
  language : String
  lastMessage : Option LastMsgView
deriving DecidableEq

/-- The `pagination` block of the listing response. -/
structure PageInfo where
  page : Nat
  limit : Nat
  total : Nat
  totalPages : Nat
deriving DecidableEq

/-- The listing response. -/
structure ChatsPage where
  chats : List ChatSummary
  pagination : PageInfo
deriving DecidableEq

/-- The page of chats `getChats` retrieves: filter, sort, then
`skip((page−1)·limit).take(limit)` (lines 194-262). -/
def pageChats (db : DB) (q : GetChatsQuery) : List Chat :=
  ((List.insertionSort (chatOrder q) (db.chats.filter (chatMatches q))).drop
    ((q.page - 1) * q.limit)).take q.limit

/-- The single batched message query (lines 268-273): all messages whose
`chatId` is among the page's chat ids, sorted newest-first. -/
def pageMessages (db : DB) (q : GetChatsQuery) : List ChatMessage :=
  List.insertionSort msgDesc
    (db.messages.filter (fun m => ((pageChats db q).map (fun c => c.id)).contains m.chatId))

/-- The `forEach`/`Map.has` loop keeps the first (hence newest) fetched
message per chat (lines 276-280); the first hit in the descending list is
`find?`.  `formatChat` then shapes one summary (lines 284-309). -/
def formatChat (db : DB) (q : GetChatsQuery) (chat : Chat) : ChatSummary :=
  let lastMessage := (pageMessages db q).find? (fun m => m.chatId == chat.id)
  { id := chat.id
    createdAt := chat.createdAt
    updatedAt := chat.updatedAt
    phone := chat.phone
    name := chat.name
    projectType := chat.projectType
    messageCount := chat.messageCount
    status := chat.status
    hasPriceObjection := chat.hasPriceObjection
    hasNegativeResponse := chat.hasNegativeResponse
    hasName := chat.hasName
    askedForContact := chat.askedForContact
    language := chat.language
    lastMessage := lastMessage.map (fun m =>
      { text := m.text, sender := m.sender, time := m.createdAt }) }

/-- `getChats` (lines 180-320): the formatted page plus pagination info. -/
def getChats (db : DB) (q : GetChatsQuery) : ChatsPage :=
  let total := (db.chats.filter (chatMatches q)).length
  { chats := (pageChats db q).map (formatChat db q)
    pagination := {
      page := q.page
      limit := q.limit
      total := total
      totalPages := (total + q.limit - 1) / q.limit } }

/-! ## Statistics (chats.service.ts, getStats) -/

/-- JS `parseFloat(x.toFixed(2))` on a non-negative number, idealised over
the rationals: round to the nearest multiple of 1/100, ties upward (the
ECMAScript `toFixed` tie rule picks the larger candidate). -/
def toFixed2 (q : ℚ) : ℚ := (⌊q * 100 + 1/2⌋ : ℚ) / 100

/-- The `getStats` response (only scalar aggregates; the grouped maps are
association lists). -/
structure StatsResult where
  total : Nat
  byStatus : List (ChatStatus × Nat)
  byProjectType : List (String × Nat)
  withPhone : Nat
  withName : Nat
  withBoth : Nat
  avgMessageCount : ℚ
  priceObjections : Nat
  negativeResponses : Nat
  uncertaintyRate : ℚ
  last24h : Nat
  last7days : Nat
  last30days : Nat
deriving DecidableEq

/-- `getStats` (lines 397-500): counts over the chat table, grouped counts by
status and non-null project type, average message count (SQL `AVG`, NULL →
0 when the table is empty), contact/metric counts, the uncertainty rate
with its `toFixed(2)` rounding, and the three trailing activity windows. -/
def getStats (db : DB) : StatsResult :=
  let total := db.chats.length
  let statuses := (db.chats.map (fun c => c.status)).dedup
  let byStatus := statuses.map (fun s =>
    (s, (db.chats.filter (fun c => c.status == s)).length))
  let projectTypes := (db.chats.filterMap (fun c => c.projectType)).dedup
  let byProjectType := projectTypes.map (fun p =>
    (p, (db.chats.filter (fun c => c.projectType == some p)).length))
  let withPhone := (db.chats.filter (fun c => c.phone.isSome)).length
  let withName := (db.chats.filter (fun c => c.hasName)).length
  let withBoth := (db.chats.filter (fun c => c.phone.isSome && c.hasName)).length
  let priceObjections := (db.chats.filter (fun c => c.hasPriceObjection)).length
  let negativeResponses := (db.chats.filter (fun c => c.hasNegativeResponse)).length
  let uncertaintyCount := (db.chats.filter (fun c => c.hasUncertainty)).length
  let avgMessageCount : ℚ :=
    if total = 0 then 0
    else ((db.chats.map (fun c => (c.messageCount : ℚ))).sum) / total
  let uncertaintyRate : ℚ :=
    if 0 < total then ((uncertaintyCount : ℚ) / total) * 100 else 0
  let inWindow := fun (lo : Int) =>
    (db.chats.filter (fun c => decide (lo ≤ c.createdAt) && decide (c.createdAt ≤ db.now))).length
  { total := total
    byStatus := byStatus
    byProjectType := byProjectType
    withPhone := withPhone
    withName := withName
    withBoth := withBoth
    avgMessageCount := avgMessageCount
    priceObjections := priceObjections
    negativeResponses := negativeResponses
    uncertaintyRate := toFixed2 uncertaintyRate
    last24h := inWindow (db.now - 24 * 60 * 60 * 1000)
    last7days := inWindow (db.now - 7 * 24 * 60 * 60 * 1000)
    last30days := inWindow (db.now - 30 * 24 * 60 * 60 * 1000) }

/-! ## Generic helper lemmas -/

instance {ε α : Type} [DecidableEq ε] [DecidableEq α] : DecidableEq (Except ε α) :=
  fun x y =>
  match x, y with
  | Except.ok a, Except.ok b => decidable_of_iff (a = b) (by simp)
  | Except.error e, Except.error f => decidable_of_iff (e = f) (by simp)
  | Except.ok _, Except.error _ => isFalse (by simp)
  | Except.error _, Except.ok _ => isFalse (by simp)

theorem insertMsgs_length (cid sid : Nat) (ms : List MessageDto) :
    (insertMsgs cid sid ms).length = ms.length := by
  induction ms generalizing sid with
  | nil => rfl
  | cons m rest ih => simp [insertMsgs, ih]

theorem insertMsgs_chatId (cid sid : Nat) (ms : List MessageDto) :
    ∀ m ∈ insertMsgs cid sid ms, m.chatId = cid ∧ sid ≤ m.id := by
  induction ms generalizing sid with
  | nil => intro m hm; cases hm
  | cons a rest ih =>
    intro m hm
    rcases List.mem_cons.mp hm with hm | hm
    · subst hm; exact ⟨rfl, le_refl _⟩
    · have := ih (sid + 1) m hm
      exact ⟨this.1, le_trans (Nat.le_succ sid) this.2⟩

theorem insertMsgs_content (cid sid : Nat) (ms : List MessageDto) :
    (insertMsgs cid sid ms).map (fun m => (m.sender, m.text, m.createdAt)) =
      ms.map (fun m => (m.sender, m.text, m.time)) := by
  induction ms generalizing sid with
  | nil => rfl
  | cons a rest ih => simp [insertMsgs, ih]

theorem insertMsgs_filter_self (cid sid : Nat) (ms : List MessageDto) :
    (insertMsgs cid sid ms).filter (fun m => m.chatId == cid) =
      insertMsgs cid sid ms := by
  apply List.filter_eq_self.mpr
  intro m hm
  simpa using (insertMsgs_chatId cid sid ms m hm).1

theorem filter_not_filter_nil {α : Type} (p : α → Bool) (l : List α) :
    (l.filter (fun a => !(p a))).filter p = [] := by
  induction l with
  | nil => rfl
  | cons a rest ih =>
    by_cases h : p a = true
    · simp [List.filter, h, ih]
    · simp only [Bool.not_eq_true] at h
      simp [List.filter, h, ih]

theorem find?_append_right {α : Type} (p : α → Bool) (l1 l2 : List α)
    (h : ∀ a ∈ l1, p a = false) :
    (l1 ++ l2).find? p = l2.find? p := by
  induction l1 with
  | nil => rfl
  | cons a rest ih =>
    have ha := h a (List.mem_cons_self a rest)
    simp only [List.cons_append, List.find?, ha]
    exact ih (fun b hb => h b (List.mem_cons_of_mem a hb))

theorem find?_map_replace (x : Nat) (nc : Chat) (hnc : nc.id = x) :
    ∀ (l : List Chat) (old : Chat),
      l.find? (fun c => c.id == x) = some old →
      (l.map (fun c => if c.id == x then nc else c)).find? (fun c => c.id == x) =
        some nc := by
  intro l
  induction l with
  | nil => intro old h; cases h
  | cons a rest ih =>
    intro old h
    by_cases ha : a.id = x
    · have hmap : ((a :: rest).map (fun c => if c.id == x then nc else c))
          = nc :: rest.map (fun c => if c.id == x then nc else c) := by simp [ha]
      rw [hmap, List.find?_cons_of_pos]
      simp [hnc]
    · have hmap : ((a :: rest).map (fun c => if c.id == x then nc else c))
          = a :: rest.map (fun c => if c.id == x then nc else c) := by simp [ha]
      rw [List.find?_cons_of_neg (p := fun (c : Chat) => c.id == x) rest
        (by simp [ha])] at h
      rw [hmap, List.find?_cons_of_neg (p := fun (c : Chat) => c.id == x) _
        (by simp [ha])]
      exact ih old h

theorem applyAdminFields_eq (dto : UpdateChatDto) (now : Int) (chat : Chat) :
    applyAdminFields dto now chat = { chat with
      status := (match dto.status with | some s => s | none => chat.status),
      notes := (match dto.notes with | some n => some n | none => chat.notes),
      updatedAt := now } := by
  unfold applyAdminFields
  cases dto.status <;> cases dto.notes <;> rfl

/-- A `find?` hit on a list that is `Pairwise R` is `R`-below every later
match; combined with the head test it bounds every match in the list. -/
theorem find?_pairwise_bound {α : Type} (R : α → α → Prop) (p : α → Bool) :
    ∀ (l : List α), l.Pairwise R → ∀ m, l.find? p = some m →
      ∀ x ∈ l, p x = true → x = m ∨ R m x := by
  intro l
  induction l with
  | nil => intro _ m h; cases h
  | cons a rest ih =>
    intro hpw m hfind x hx hpx
    rcases List.pairwise_cons.mp hpw with ⟨ha, hrest⟩
    by_cases hpa : p a = true
    · rw [List.find?_cons_of_pos _ hpa] at hfind
      injection hfind with hfind
      rcases List.mem_cons.mp hx with hx | hx
      · exact Or.inl (hx.trans hfind)
      · exact Or.inr (hfind ▸ ha x hx)
    · rw [List.find?_cons_of_neg _ hpa] at hfind
      rcases List.mem_cons.mp hx with hx | hx
      · subst hx; exact absurd hpx hpa
      · exact ih hrest m hfind x hx hpx

/-! ## Shape lemmas for the write path -/

theorem createChat_update_route (db : DB) (dto : CreateChatDto)
    (ms : List MessageDto) (x : Nat) (hm : dto.messages = some ms)
    (hlen : ¬ ms.length < 2) (hcid : dto.chatId = some x) :
    createChat db dto = updateExistingChat db dto := by
  unfold createChat
  rw [hm, hcid]
  simp [hlen]

theorem createChat_create_route (db : DB) (dto : CreateChatDto)
    (ms : List MessageDto) (hm : dto.messages = some ms)
    (hlen : ¬ ms.length < 2) (hcid : dto.chatId = none) :
    createChat db dto = ((createNewChat db dto).1, Except.ok (createNewChat db dto).2) := by
  unfold createChat
  rw [hm, hcid]
  simp [hlen]

theorem updateExistingChat_ok_shape (db : DB) (dto : CreateChatDto) (x : Nat)
    (hcid : dto.chatId = some x) (db2 : DB) (r : SaveResult)
    (h : updateExistingChat db dto = (db2, Except.ok r)) :
    ∃ old, db.chats.find? (fun c => c.id == x) = some old ∧ old.id = x ∧
      r = { chatId := old.id, updated := true } ∧
      db2 = { db with
        chats := db.chats.map (fun c =>
          if c.id == old.id then applyDtoFields dto (dto.messages.getD []) db.now old
          else c)
        messages := db.messages.filter (fun m => !(m.chatId == old.id)) ++
          insertMsgs old.id db.nextMsgId (dto.messages.getD [])
        nextMsgId := db.nextMsgId + (dto.messages.getD []).length } := by
  unfold updateExistingChat at h
  rw [hcid] at h
  simp only [Option.getD_some] at h
  cases hfind : db.chats.find? (fun c => c.id == x) with
  | none => rw [hfind] at h; simp at h
  | some old =>
    rw [hfind] at h
    simp only [Prod.mk.injEq, Except.ok.injEq] at h
    obtain ⟨h1, h2⟩ := h
    have hid : old.id = x := by
      have := List.find?_some hfind
      simpa using this
    exact ⟨old, rfl, hid, h2.symm, h1.symm⟩

/-- Field-by-field effect of the update mutations: the double
`if !old && new / else if new` chains collapse to replace-if-present; the
metric block is replaced unconditionally; everything else (status, notes,
userAgent, ipAddress, createdAt, id) is untouched; `updatedAt` is refreshed. -/
theorem applyDtoFields_spec (dto : CreateChatDto) (ms : List MessageDto)
    (now : Int) (c : Chat) :
    (applyDtoFields dto ms now c).phone =
      (if truthyStr dto.phone then dto.phone else c.phone) ∧
    (applyDtoFields dto ms now c).name =
      (if truthyStr dto.name then dto.name else c.name) ∧
    (applyDtoFields dto ms now c).projectType =
      (if truthyStr dto.projectType then dto.projectType else c.projectType) ∧
    (applyDtoFields dto ms now c).language =
      (if truthyStr dto.language then dto.language.getD "" else c.language) ∧
    (applyDtoFields dto ms now c).messageCount = ms.length ∧
    (applyDtoFields dto ms now c).hasPriceObjection =
      (dto.metrics.map (fun (m : MetricsDto) => m.hasPriceObjection)).getD false ∧
    (applyDtoFields dto ms now c).hasNegativeResponse =
      (dto.metrics.map (fun (m : MetricsDto) => m.hasNegativeResponse)).getD false ∧
    (applyDtoFields dto ms now c).hasName =
      (dto.metrics.map (fun (m : MetricsDto) => m.hasName)).getD false ∧
    (applyDtoFields dto ms now c).askedForContact =
      (dto.metrics.map (fun (m : MetricsDto) => m.askedForContact)).getD false ∧
    (applyDtoFields dto ms now c).hasUncertainty =
      (dto.metrics.map (fun (m : MetricsDto) => m.hasUncertainty)).getD false ∧
    (applyDtoFields dto ms now c).uncertaintyCount =
      (dto.metrics.map (fun (m : MetricsDto) => m.uncertaintyCount)).getD 0 ∧
    (applyDtoFields dto ms now c).status = c.status ∧
    (applyDtoFields dto ms now c).notes = c.notes ∧
    (applyDtoFields dto ms now c).userAgent = c.userAgent ∧
    (applyDtoFields dto ms now c).ipAddress = c.ipAddress ∧
    (applyDtoFields dto ms now c).createdAt = c.createdAt ∧
    (applyDtoFields dto ms now c).updatedAt = now ∧
    (applyDtoFields dto ms now c).id = c.id := by
  unfold applyDtoFields
  cases hl : dto.language with
  | none =>
    by_cases hp : truthyStr dto.phone <;>
    by_cases hn : truthyStr dto.name <;>
    by_cases hpt : truthyStr dto.projectType <;>
      simp_all [truthyStr]
  | some l =>
    by_cases hp : truthyStr dto.phone <;>
    by_cases hn : truthyStr dto.name <;>
    by_cases hpt : truthyStr dto.projectType <;>
      simp_all [truthyStr] <;> (repeat' split) <;> simp_all

/-- A successful save implies the ≥2-messages guard passed. -/
theorem createChat_ok_messages (db : DB) (dto : CreateChatDto) (db2 : DB)
    (r : SaveResult) (h : createChat db dto = (db2, Except.ok r)) :
    ∃ ms, dto.messages = some ms ∧ ¬ ms.length < 2 := by
  cases hm : dto.messages with
  | none => unfold createChat at h; rw [hm] at h; simp at h
  | some ms =>
    by_cases hlen : ms.length < 2
    · unfold createChat at h
      rw [hm] at h
      simp [hlen] at h
    · exact ⟨ms, rfl, hlen⟩

/-- Observable content of a stored message row: sender, text and timestamp
(ids are storage artefacts). -/
def msgContent (m : ChatMessage) : MessageSender × String × Int :=
  (m.sender, m.text, m.createdAt)

/-- Observable content of a submitted message. -/
def dtoContent (m : MessageDto) : MessageSender × String × Int :=
  (m.sender, m.text, m.time)

/-- The stored transcript of a chat: contents of its message rows. -/
def transcript (db : DB) (cid : Nat) : List (MessageSender × String × Int) :=
  (db.messages.filter (fun m => m.chatId == cid)).map msgContent

/-- After a successful update-existing-chat save the stored transcript of
the referenced chat is exactly the submitted list and its `messageCount` is
the submitted length. -/
theorem update_save_transcript (db : DB) (dto : CreateChatDto) (x : Nat)
    (ms : List MessageDto) (db2 : DB) (r : SaveResult)
    (hcid : dto.chatId = some x) (hm : dto.messages = some ms)
    (h : createChat db dto = (db2, Except.ok r)) :
    r.chatId = x ∧
    transcript db2 x = ms.map dtoContent ∧
    (∃ c, db2.chats.find? (fun c => c.id == x) = some c ∧
      c.messageCount = ms.length) := by
  obtain ⟨ms', hm', hlen'⟩ := createChat_ok_messages db dto db2 r h
  rw [hm] at hm'
  injection hm' with hm'
  subst hm'
  rw [createChat_update_route db dto ms x hm hlen' hcid] at h
  obtain ⟨old, hfind, hid, hr, hdb2⟩ :=
    updateExistingChat_ok_shape db dto x hcid db2 r h
  have hmsG : dto.messages.getD [] = ms := by rw [hm]; rfl
  refine ⟨by rw [hr]; exact hid, ?_, ?_⟩
  · subst hdb2
    show ((db.messages.filter (fun m => !(m.chatId == old.id)) ++
      insertMsgs old.id db.nextMsgId (dto.messages.getD [])).filter
        (fun m => m.chatId == x)).map msgContent = ms.map dtoContent
    rw [List.filter_append, ← hid, filter_not_filter_nil, List.nil_append,
      insertMsgs_filter_self, hmsG]
    exact insertMsgs_content old.id db.nextMsgId ms
  · obtain ⟨hphone, hname, hpt, hlang, hcnt, hm1, hm2, hm3, hm4, hm5, hm6, hst,
      hnotes, hua, hip, hcr, hup, hidf⟩ :=
      applyDtoFields_spec dto (dto.messages.getD []) db.now old
    refine ⟨applyDtoFields dto (dto.messages.getD []) db.now old, ?_, ?_⟩
    · subst hdb2
      show (db.chats.map (fun c =>
        if c.id == old.id then applyDtoFields dto (dto.messages.getD []) db.now old
        else c)).find? (fun c => c.id == x) = _
      rw [hid] at hidf ⊢
      exact find?_map_replace x _ hidf db.chats old hfind
    · rw [hcnt, hmsG]

/-- After a successful create-new-chat save on a well-formed store the
stored transcript of the fresh chat is exactly the submitted list and its
`messageCount` is the submitted length. -/
theorem create_save_transcript (db : DB) (dto : CreateChatDto)
    (ms : List MessageDto) (db2 : DB) (r : SaveResult)
    (hWF : db.WF) (hcid : dto.chatId = none) (hm : dto.messages = some ms)
    (h : createChat db dto = (db2, Except.ok r)) :
    r.chatId = db.nextChatId ∧
    transcript db2 r.chatId = ms.map dtoContent ∧
    (∃ c, db2.chats.find? (fun c => c.id == r.chatId) = some c ∧
      c.messageCount = ms.length) := by
  obtain ⟨ms', hm', hlen'⟩ := createChat_ok_messages db dto db2 r h
  rw [hm] at hm'
  injection hm' with hm'
  subst hm'
  rw [createChat_create_route db dto ms hm hlen' hcid] at h
  simp only [Prod.mk.injEq, Except.ok.injEq] at h
  obtain ⟨h1, h2⟩ := h
  have hmsG : dto.messages.getD [] = ms := by rw [hm]; rfl
  have hrid : r.chatId = db.nextChatId := by rw [← h2]; rfl
  refine ⟨hrid, ?_, ?_⟩
  · rw [hrid, ← h1]
    show ((db.messages ++
      insertMsgs (newChatRecord db dto).id db.nextMsgId (dto.messages.getD [])).filter
        (fun m => m.chatId == db.nextChatId)).map msgContent = ms.map dtoContent
    have hold : db.messages.filter (fun m => m.chatId == db.nextChatId) = [] := by
      apply List.filter_eq_nil_iff.mpr
      intro m hmem
      have := hWF.2.2 m hmem
      simp only [beq_iff_eq]
      omega
    have hncid : (newChatRecord db dto).id = db.nextChatId := rfl
    rw [List.filter_append, hold, List.nil_append, hncid,
      insertMsgs_filter_self, hmsG]
    exact insertMsgs_content db.nextChatId db.nextMsgId ms
  · refine ⟨newChatRecord db dto, ?_, ?_⟩
    · rw [hrid, ← h1]
      show (db.chats ++ [newChatRecord db dto]).find?
        (fun c => c.id == db.nextChatId) = _
      rw [find?_append_right _ db.chats _ ?hall]
      · simp [List.find?, newChatRecord]
      case hall =>
        intro c hc
        have := hWF.1 c hc
        simp only [beq_eq_false_iff_ne, ne_eq]
        omega
    · show (dto.messages.getD []).length = ms.length
      rw [hmsG]

/-! ## Concrete fixtures used by witnesses -/

def exMsg1 : MessageDto := { sender := MessageSender.bot, text := "Hi", time := 50 }

def exMsg2 : MessageDto := { sender := MessageSender.user, text := "Hello", time := 30 }

def exChat : Chat := {
  id := 0, createdAt := 10, updatedAt := 10, phone := none, name := some "Ann",
  projectType := none, language := "ru", messageCount := 2,
  hasPriceObjection := false, hasNegativeResponse := false, hasName := true,
  askedForContact := false, hasUncertainty := false, uncertaintyCount := 0,
  status := ChatStatus.contacted, notes := some "admin note", userAgent := none,
  ipAddress := none }

def exDB : DB := {
  chats := [exChat],
  messages :=
    [{ id := 0, chatId := 0, sender := MessageSender.bot, text := "old1", createdAt := 1 },
     { id := 1, chatId := 0, sender := MessageSender.user, text := "old2", createdAt := 2 }],
  nextChatId := 1, nextMsgId := 2, now := 1000 }

def exDtoUpd : CreateChatDto := {
  timestamp := 999, chatId := some 0, messages := some [exMsg1, exMsg2],
  phone := some "+77001234567" }

def exDtoNew : CreateChatDto := {
  timestamp := 999, messages := some [exMsg1, exMsg2], name := some "Bob" }

def exChatU (i : Nat) (u : Bool) : Chat :=
  { exChat with id := i, hasUncertainty := u }

def exDB9 : DB := {
  chats := [exChatU 0 true, exChatU 1 true, exChatU 2 true, exChatU 3 false,
    exChatU 4 false, exChatU 5 false, exChatU 6 false, exChatU 7 false],
  messages := [], nextChatId := 8, nextMsgId := 0, now := 0 }

/-! ## Claims -/

/-- C2: a transcript save request whose message list is absent or shorter
than 2 is rejected by `createChat` with the validation error, and the store
is returned unchanged — no chat row and no message row is created or
modified. -/
theorem C2_min_messages (db : DB) (dto : CreateChatDto)
    (h : dto.messages = none ∨ ∃ ms, dto.messages = some ms ∧ ms.length < 2) :
    createChat db dto = (db, Except.error ChatError.badRequest) := by
  unfold createChat
  rcases h with h | ⟨ms, hms, hlen⟩
  · rw [h]
  · rw [hms]
    simp [hlen]

theorem C2_witness :
    createChat exDB { timestamp := 0, messages := some [exMsg1] } =
      (exDB, Except.error ChatError.badRequest) :=
  C2_min_messages exDB _ (Or.inr ⟨[exMsg1], rfl, by decide⟩)

/-- C5: on an existing chat, `updateChat` applies `status` exactly when the
request carries one and `notes` exactly when the field is present (a
present-but-empty notes value is stored, clearing the notes), each leaving
the other — and every remaining chat field, every other chat, and all
messages — untouched. -/
theorem C5_partial_update (db : DB) (id : Nat) (dto : UpdateChatDto)
    (db2 : DB) (e : Except ChatError Unit)
    (h : updateChat db id dto = (db2, e)) (hok : e = Except.ok ()) :
    ∃ old, db.chats.find? (fun c => c.id == id) = some old ∧
      db2.chats.find? (fun c => c.id == id) = some { old with
        status := (match dto.status with | some s => s | none => old.status),
        notes := (match dto.notes with | some n => some n | none => old.notes),
        updatedAt := db.now } ∧
      db2.messages = db.messages ∧
      (∀ c ∈ db.chats, c.id ≠ id → c ∈ db2.chats) := by
  subst hok
  unfold updateChat at h
  cases hfind : db.chats.find? (fun c => c.id == id) with
  | none => rw [hfind] at h; simp at h
  | some old =>
    rw [hfind] at h
    simp only [Prod.mk.injEq] at h
    obtain ⟨h1, -⟩ := h
    have hid : old.id = id := by simpa using List.find?_some hfind
    subst hid
    refine ⟨old, rfl, ?_, ?_, ?_⟩
    · rw [← h1]
      show (db.chats.map (fun c =>
        if c.id == old.id then applyAdminFields dto db.now old else c)).find?
          (fun c => c.id == old.id) = _
      rw [applyAdminFields_eq]
      have hrepl := find?_map_replace old.id (applyAdminFields dto db.now old)
        (by rw [applyAdminFields_eq]) db.chats old hfind
      rw [applyAdminFields_eq] at hrepl
      exact hrepl
    · rw [← h1]
    · intro c hc hne
      rw [← h1]
      refine List.mem_map.mpr ⟨c, hc, ?_⟩
      simp [show (c.id == old.id) = false by simpa using hne]

theorem C5_witness :
    ∃ old, exDB.chats.find? (fun c => c.id == 0) = some old ∧
      (updateChat exDB 0 { notes := some "" }).1.chats.find? (fun c => c.id == 0) =
        some { old with
          status := (match (none : Option ChatStatus) with | some s => s | none => old.status),
          notes := (match (some "" : Option String) with | some n => some n | none => old.notes),
          updatedAt := exDB.now } ∧
      (updateChat exDB 0 { notes := some "" }).1.messages = exDB.messages ∧
      (∀ c ∈ exDB.chats, c.id ≠ 0 → c ∈ (updateChat exDB 0 { notes := some "" }).1.chats) :=
  C5_partial_update exDB 0 { notes := some "" }
    (updateChat exDB 0 { notes := some "" }).1
    (updateChat exDB 0 { notes := some "" }).2 rfl (by decide)

/-- C6: an id that identifies no stored chat makes the existing-chat save
path, `getChatById` and `updateChat` all fail with the not-found error, and
the two writing operations return the store unchanged (and `getChatById`
takes no store output at all). -/
theorem C6_not_found (db : DB) (x : Nat)
    (habs : ∀ c ∈ db.chats, c.id ≠ x) :
    (∀ (dto : CreateChatDto) (ms : List MessageDto), dto.chatId = some x →
      dto.messages = some ms → ¬ ms.length < 2 →
      createChat db dto = (db, Except.error ChatError.notFound)) ∧
    getChatById db x = Except.error ChatError.notFound ∧
    (∀ dto : UpdateChatDto, updateChat db x dto = (db, Except.error ChatError.notFound)) := by
  have hfind : db.chats.find? (fun c => c.id == x) = none := by
    apply List.find?_eq_none.mpr
    intro c hc
    simpa using habs c hc
  refine ⟨?_, ?_, ?_⟩
  · intro dto ms hcid hm h2
    rw [createChat_update_route db dto ms x hm h2 hcid]
    unfold updateExistingChat
    rw [hcid]
    simp only [Option.getD_some]
    rw [hfind]
  · unfold getChatById
    rw [hfind]
  · intro dto
    unfold updateChat
    rw [hfind]

theorem C6_witness :
    (∀ (dto : CreateChatDto) (ms : List MessageDto), dto.chatId = some 99 →
      dto.messages = some ms → ¬ ms.length < 2 →
      createChat exDB dto = (exDB, Except.error ChatError.notFound)) ∧
    getChatById exDB 99 = Except.error ChatError.notFound ∧
    (∀ dto : UpdateChatDto, updateChat exDB 99 dto = (exDB, Except.error ChatError.notFound)) :=
  C6_not_found exDB 99 (by decide)

/-- C3: on a save that references an existing chat, each of phone, name and
projectType is set to the request's value exactly when the request supplies
one (an optional string that is present and non-empty — JS truthiness) and
is left at its prior value otherwise (no keep-longer-string merge), while
all six metric fields are unconditionally replaced by the request's metrics
values, defaulting to false/0 when the metrics object is absent. -/
theorem C3_update_field_semantics (db : DB) (dto : CreateChatDto) (x : Nat)
    (db2 : DB) (r : SaveResult) (hcid : dto.chatId = some x)
    (h : createChat db dto = (db2, Except.ok r)) :
    ∃ old updated, db.chats.find? (fun c => c.id == x) = some old ∧
      db2.chats.find? (fun c => c.id == x) = some updated ∧
      updated.phone = (if truthyStr dto.phone then dto.phone else old.phone) ∧
      updated.name = (if truthyStr dto.name then dto.name else old.name) ∧
      updated.projectType =
        (if truthyStr dto.projectType then dto.projectType else old.projectType) ∧
      updated.hasPriceObjection =
        (dto.metrics.map (fun (m : MetricsDto) => m.hasPriceObjection)).getD false ∧
      updated.hasNegativeResponse =
        (dto.metrics.map (fun (m : MetricsDto) => m.hasNegativeResponse)).getD false ∧
      updated.hasName =
        (dto.metrics.map (fun (m : MetricsDto) => m.hasName)).getD false ∧
      updated.askedForContact =
        (dto.metrics.map (fun (m : MetricsDto) => m.askedForContact)).getD false ∧
      updated.hasUncertainty =
        (dto.metrics.map (fun (m : MetricsDto) => m.hasUncertainty)).getD false ∧
      updated.uncertaintyCount =
        (dto.metrics.map (fun (m : MetricsDto) => m.uncertaintyCount)).getD 0 := by
  obtain ⟨ms, hm, hlen⟩ := createChat_ok_messages db dto db2 r h
  rw [createChat_update_route db dto ms x hm hlen hcid] at h
  obtain ⟨old, hfind, hid, hr, hdb2⟩ :=
    updateExistingChat_ok_shape db dto x hcid db2 r h
  obtain ⟨hphone, hname, hpt, hlang, hcnt, hm1, hm2, hm3, hm4, hm5, hm6, hst,
    hnotes, hua, hip, hcr, hup, hidf⟩ :=
    applyDtoFields_spec dto (dto.messages.getD []) db.now old
  refine ⟨old, applyDtoFields dto (dto.messages.getD []) db.now old, hfind, ?_,
    hphone, hname, hpt, hm1, hm2, hm3, hm4, hm5, hm6⟩
  subst hdb2
  show (db.chats.map (fun c =>
    if c.id == old.id then applyDtoFields dto (dto.messages.getD []) db.now old
    else c)).find? (fun c => c.id == x) = _
  rw [hid] at hidf ⊢
  exact find?_map_replace x _ hidf db.chats old hfind

theorem C3_witness :
    ∃ old updated, exDB.chats.find? (fun c => c.id == 0) = some old ∧
      ((createChat exDB exDtoUpd).1).chats.find? (fun c => c.id == 0) = some updated ∧
      updated.phone =
        (if truthyStr exDtoUpd.phone then exDtoUpd.phone else old.phone) ∧
      updated.name = (if truthyStr exDtoUpd.name then exDtoUpd.name else old.name) ∧
      updated.projectType =
        (if truthyStr exDtoUpd.projectType then exDtoUpd.projectType
         else old.projectType) ∧
      updated.hasPriceObjection =
        (exDtoUpd.metrics.map (fun (m : MetricsDto) => m.hasPriceObjection)).getD false ∧
      updated.hasNegativeResponse =
        (exDtoUpd.metrics.map (fun (m : MetricsDto) => m.hasNegativeResponse)).getD false ∧
      updated.hasName =
        (exDtoUpd.metrics.map (fun (m : MetricsDto) => m.hasName)).getD false ∧
      updated.askedForContact =
        (exDtoUpd.metrics.map (fun (m : MetricsDto) => m.askedForContact)).getD false ∧
      updated.hasUncertainty =
        (exDtoUpd.metrics.map (fun (m : MetricsDto) => m.hasUncertainty)).getD false ∧
      updated.uncertaintyCount =
        (exDtoUpd.metrics.map (fun (m : MetricsDto) => m.uncertaintyCount)).getD 0 :=
  C3_update_field_semantics exDB exDtoUpd 0 (createChat exDB exDtoUpd).1
    { chatId := 0, updated := true } rfl (by decide)

/-- C10: the transcript write path never touches the admin-owned state: an
update-existing-chat save leaves status, notes, userAgent, ipAddress and
createdAt exactly as they were, and the creation path is the only place the
write path assigns a status — always `new`. -/
theorem C10_admin_fields_frame :
    (∀ (db : DB) (dto : CreateChatDto) (x : Nat) (db2 : DB) (r : SaveResult),
      dto.chatId = some x →
      createChat db dto = (db2, Except.ok r) →
      ∃ old updated, db.chats.find? (fun c => c.id == x) = some old ∧
        db2.chats.find? (fun c => c.id == x) = some updated ∧
        updated.status = old.status ∧ updated.notes = old.notes ∧
        updated.userAgent = old.userAgent ∧ updated.ipAddress = old.ipAddress ∧
        updated.createdAt = old.createdAt) ∧
    (∀ (db : DB) (dto : CreateChatDto) (db2 : DB) (r : SaveResult),
      dto.chatId = none →
      createChat db dto = (db2, Except.ok r) →
      ∃ nc, db2.chats = db.chats ++ [nc] ∧ nc.status = ChatStatus.new ∧
        r.chatId = nc.id ∧ r.updated = false) := by
  constructor
  · intro db dto x db2 r hcid h
    obtain ⟨ms, hm, hlen⟩ := createChat_ok_messages db dto db2 r h
    rw [createChat_update_route db dto ms x hm hlen hcid] at h
    obtain ⟨old, hfind, hid, hr, hdb2⟩ :=
      updateExistingChat_ok_shape db dto x hcid db2 r h
    obtain ⟨hphone, hname, hpt, hlang, hcnt, hm1, hm2, hm3, hm4, hm5, hm6, hst,
      hnotes, hua, hip, hcr, hup, hidf⟩ :=
      applyDtoFields_spec dto (dto.messages.getD []) db.now old
    refine ⟨old, applyDtoFields dto (dto.messages.getD []) db.now old, hfind, ?_,
      hst, hnotes, hua, hip, hcr⟩
    subst hdb2
    show (db.chats.map (fun c =>
      if c.id == old.id then applyDtoFields dto (dto.messages.getD []) db.now old
      else c)).find? (fun c => c.id == x) = _
    rw [hid] at hidf ⊢
    exact find?_map_replace x _ hidf db.chats old hfind
  · intro db dto db2 r hcid h
    obtain ⟨ms, hm, hlen⟩ := createChat_ok_messages db dto db2 r h
    rw [createChat_create_route db dto ms hm hlen hcid] at h
    simp only [Prod.mk.injEq, Except.ok.injEq] at h
    obtain ⟨h1, h2⟩ := h
    refine ⟨newChatRecord db dto, ?_, rfl, ?_, ?_⟩
    · rw [← h1]; rfl
    · rw [← h2]; rfl
    · rw [← h2]; rfl

theorem C10_witness :
    (∃ old updated, exDB.chats.find? (fun c => c.id == 0) = some old ∧
      ((createChat exDB exDtoUpd).1).chats.find? (fun c => c.id == 0) = some updated ∧
      updated.status = old.status ∧ updated.notes = old.notes ∧
      updated.userAgent = old.userAgent ∧ updated.ipAddress = old.ipAddress ∧
      updated.createdAt = old.createdAt) ∧
    (∃ nc, ((createChat exDB exDtoNew).1).chats = exDB.chats ++ [nc] ∧
      nc.status = ChatStatus.new ∧
      ({ chatId := 1, updated := false } : SaveResult).chatId = nc.id ∧
      ({ chatId := 1, updated := false } : SaveResult).updated = false) :=
  ⟨C10_admin_fields_frame.1 exDB exDtoUpd 0 (createChat exDB exDtoUpd).1
    { chatId := 0, updated := true } rfl (by decide),
   C10_admin_fields_frame.2 exDB exDtoNew (createChat exDB exDtoNew).1
    { chatId := 1, updated := false } rfl (by decide)⟩

/-- C4: every successful save (create or update) stores `messageCount` equal
to the submitted list's length and makes the stored transcript exactly the
submitted contents; hence re-submitting the same list to the same chat
yields the same `messageCount` and the same message set. -/
theorem C4_messageCount_idempotent (db : DB) (dto : CreateChatDto)
    (ms : List MessageDto) (db2 : DB) (r : SaveResult)
    (hWF : db.WF) (hm : dto.messages = some ms)
    (h : createChat db dto = (db2, Except.ok r)) :
    (∃ c, db2.chats.find? (fun c => c.id == r.chatId) = some c ∧
      c.messageCount = ms.length) ∧
    transcript db2 r.chatId = ms.map dtoContent ∧
    (∀ db3 r2,
      createChat db2 { dto with chatId := some r.chatId } = (db3, Except.ok r2) →
      r2.chatId = r.chatId ∧
      (∃ c, db3.chats.find? (fun c => c.id == r.chatId) = some c ∧
        c.messageCount = ms.length) ∧
      transcript db3 r.chatId = transcript db2 r.chatId) := by
  have hfirst : transcript db2 r.chatId = ms.map dtoContent ∧
      (∃ c, db2.chats.find? (fun c => c.id == r.chatId) = some c ∧
        c.messageCount = ms.length) := by
    cases hcid : dto.chatId with
    | some x =>
      obtain ⟨hr, ht, hc⟩ := update_save_transcript db dto x ms db2 r hcid hm h
      rw [hr]
      exact ⟨ht, hc⟩
    | none =>
      obtain ⟨hr, ht, hc⟩ := create_save_transcript db dto ms db2 r hWF hcid hm h
      exact ⟨ht, hc⟩
  refine ⟨hfirst.2, hfirst.1, ?_⟩
  intro db3 r2 h2
  obtain ⟨hr2, ht2, hc2⟩ := update_save_transcript db2
    { dto with chatId := some r.chatId } r.chatId ms db3 r2 rfl hm h2
  exact ⟨hr2, hc2, by rw [ht2, hfirst.1]⟩

theorem C4_witness :
    (∃ c, ((createChat exDB exDtoUpd).1).chats.find? (fun c => c.id == 0) = some c ∧
      c.messageCount = [exMsg1, exMsg2].length) ∧
    transcript (createChat exDB exDtoUpd).1 0 = [exMsg1, exMsg2].map dtoContent ∧
    (∀ db3 r2,
      createChat (createChat exDB exDtoUpd).1 { exDtoUpd with chatId := some 0 } =
        (db3, Except.ok r2) →
      r2.chatId = 0 ∧
      (∃ c, db3.chats.find? (fun c => c.id == 0) = some c ∧
        c.messageCount = [exMsg1, exMsg2].length) ∧
      transcript db3 0 = transcript (createChat exDB exDtoUpd).1 0) :=
  C4_messageCount_idempotent exDB exDtoUpd [exMsg1, exMsg2]
    (createChat exDB exDtoUpd).1 { chatId := 0, updated := true }
    (by decide) rfl (by decide)

/-- C1: after a successful transcript save onto an existing chat X with N
submitted messages, `getChatById X` returns exactly those N messages — a
permutation of the submitted contents, sorted ascending by each message's
own submitted timestamp — and none of the message rows stored before the
save. -/
theorem C1_update_roundtrip (db : DB) (dto : CreateChatDto) (x : Nat)
    (ms : List MessageDto) (db2 : DB) (r : SaveResult)
    (hWF : db.WF) (hcid : dto.chatId = some x) (hm : dto.messages = some ms)
    (h : createChat db dto = (db2, Except.ok r)) :
    ∃ d, getChatById db2 x = Except.ok d ∧
      d.messages.length = ms.length ∧
      (d.messages.map (fun v => (v.sender, v.text, v.createdAt))).Perm
        (ms.map dtoContent) ∧
      d.messages.Pairwise (fun a b => a.createdAt ≤ b.createdAt) ∧
      (∀ mOld ∈ db.messages, ∀ v ∈ d.messages, v.id ≠ mOld.id) := by
  obtain ⟨ms', hm', hlen'⟩ := createChat_ok_messages db dto db2 r h
  rw [hm] at hm'
  injection hm' with hm'
  subst hm'
  rw [createChat_update_route db dto ms x hm hlen' hcid] at h
  obtain ⟨old, hfind, hid, hr, hdb2⟩ :=
    updateExistingChat_ok_shape db dto x hcid db2 r h
  have hmsG : dto.messages.getD [] = ms := by rw [hm]; rfl
  obtain ⟨hphone, hname, hpt, hlang, hcnt, hmm1, hmm2, hmm3, hmm4, hmm5, hmm6,
    hst, hnotes, hua, hip, hcr, hup, hidf⟩ :=
    applyDtoFields_spec dto (dto.messages.getD []) db.now old
  set updChat := applyDtoFields dto (dto.messages.getD []) db.now old with hupd
  have hfind2 : db2.chats.find? (fun c => c.id == x) = some updChat := by
    subst hdb2
    show (db.chats.map (fun c => if c.id == old.id then updChat else c)).find?
      (fun c => c.id == x) = some updChat
    rw [hid] at hidf ⊢
    exact find?_map_replace x _ hidf db.chats old hfind
  have hloaded : db2.messages.filter (fun m => m.chatId == updChat.id) =
      insertMsgs old.id db.nextMsgId ms := by
    subst hdb2
    show ((db.messages.filter (fun m => !(m.chatId == old.id)) ++
      insertMsgs old.id db.nextMsgId (dto.messages.getD [])).filter
        (fun m => m.chatId == updChat.id)) = _
    rw [hmsG, hidf, List.filter_append, filter_not_filter_nil, List.nil_append,
      insertMsgs_filter_self]
  have hgot : getChatById db2 x = Except.ok {
      id := updChat.id
      createdAt := updChat.createdAt
      updatedAt := updChat.updatedAt
      phone := updChat.phone
      name := updChat.name
      projectType := updChat.projectType
      status := updChat.status
      notes := updChat.notes
      metrics := {
        messageCount := updChat.messageCount
        hasPriceObjection := updChat.hasPriceObjection
        hasNegativeResponse := updChat.hasNegativeResponse
        hasName := updChat.hasName
        askedForContact := updChat.askedForContact
        hasUncertainty := updChat.hasUncertainty
        uncertaintyCount := updChat.uncertaintyCount }
      language := updChat.language
      messages := (List.insertionSort msgAsc
        (insertMsgs old.id db.nextMsgId ms)).map (fun m =>
          { id := m.id, sender := m.sender, text := m.text,
            createdAt := m.createdAt }) } := by
    unfold getChatById
    rw [hfind2]
    simp only [hloaded]
  refine ⟨_, hgot, ?_, ?_, ?_, ?_⟩
  · rw [List.length_map,
      (List.perm_insertionSort msgAsc (insertMsgs old.id db.nextMsgId ms)).length_eq,
      insertMsgs_length]
  · have hperm : (List.insertionSort msgAsc
        (insertMsgs old.id db.nextMsgId ms)).Perm
        (insertMsgs old.id db.nextMsgId ms) :=
      List.perm_insertionSort msgAsc _
    have := hperm.map (fun m => (m.sender, m.text, m.createdAt))
    rw [List.map_map]
    rw [insertMsgs_content old.id db.nextMsgId ms] at this
    exact this
  · have hsorted : (List.insertionSort msgAsc
        (insertMsgs old.id db.nextMsgId ms)).Pairwise msgAsc :=
      List.sorted_insertionSort msgAsc _
    exact List.Pairwise.map _ (fun a b hab => hab) hsorted
  · intro mOld hmOld v hv
    obtain ⟨mm, hmm, hveq⟩ := List.mem_map.mp hv
    have hmm2 : mm ∈ insertMsgs old.id db.nextMsgId ms :=
      (List.perm_insertionSort msgAsc _).mem_iff.mp hmm
    have hge := (insertMsgs_chatId old.id db.nextMsgId ms mm hmm2).2
    have hlt := hWF.2.1 mOld hmOld
    have : v.id = mm.id := by rw [← hveq]
    omega

theorem C1_witness :
    ∃ d, getChatById (createChat exDB exDtoUpd).1 0 = Except.ok d ∧
      d.messages.length = [exMsg1, exMsg2].length ∧
      (d.messages.map (fun v => (v.sender, v.text, v.createdAt))).Perm
        ([exMsg1, exMsg2].map dtoContent) ∧
      d.messages.Pairwise (fun a b => a.createdAt ≤ b.createdAt) ∧
      (∀ mOld ∈ exDB.messages, ∀ v ∈ d.messages, v.id ≠ mOld.id) :=
  C1_update_roundtrip exDB exDtoUpd 0 [exMsg1, exMsg2]
    (createChat exDB exDtoUpd).1 { chatId := 0, updated := true }
    (by decide) rfl rfl (by decide)

/-- C8: supplying `hasPhone` filters on the phone column being non-null
(`true`) or null (`false`) — relative to the otherwise-identical query this
is a total, non-overlapping partition — while supplying `hasName` filters by
equality on the boolean `hasName` metric field (not by a null check on the
name string). -/
theorem C8_phone_name_filters (q : GetChatsQuery) (c : Chat) (b : Bool) :
    chatMatches { q with hasPhone := some true } c =
      (chatMatches { q with hasPhone := none } c && c.phone.isSome) ∧
    chatMatches { q with hasPhone := some false } c =
      (chatMatches { q with hasPhone := none } c && c.phone.isNone) ∧
    ¬(chatMatches { q with hasPhone := some true } c = true ∧
      chatMatches { q with hasPhone := some false } c = true) ∧
    (chatMatches { q with hasPhone := some true } c ||
      chatMatches { q with hasPhone := some false } c) =
      chatMatches { q with hasPhone := none } c ∧
    chatMatches { q with hasName := some b } c =
      (chatMatches { q with hasName := none } c && (c.hasName == b)) := by
  dsimp only [chatMatches]
  rw [show phoneFilter (some true) c = c.phone.isSome from rfl,
      show phoneFilter (some false) c = c.phone.isNone from rfl,
      show phoneFilter none c = true from rfl,
      show nameFilter (some b) c = (c.hasName == b) from rfl,
      show nameFilter none c = true from rfl]
  generalize statusFilter q.status c = A
  generalize phoneFilter q.hasPhone c = P
  generalize nameFilter q.hasName c = N
  generalize dateFilter q.dateFrom q.dateTo c = D
  generalize searchFilter q.search c = E
  generalize (c.hasName == b) = HB
  cases c.phone <;>
    simp only [Option.isSome_none, Option.isNone_none, Option.isSome_some,
      Option.isNone_some] <;>
    revert A P N D E HB <;> decide

/-- `uncertaintyRate` as the spec words it: `100×(uncertainCount/total)`
rounded to two decimal places (nearest multiple of 1/100). -/
def specRound2 (q : ℚ) : ℚ := ((round (q * 100) : ℤ) : ℚ) / 100

/-- C9: `getStats` returns `uncertaintyRate = 0` when there are no chats and
otherwise `100 × uncertainCount / total` rounded to two decimal places; for
example 3 uncertain chats out of 8 give 37.50. -/
theorem C9_uncertaintyRate :
    (∀ db : DB, (getStats db).uncertaintyRate =
      (if db.chats.length = 0 then 0
       else specRound2
         (100 * ((db.chats.filter (fun c => c.hasUncertainty)).length : ℚ) /
           db.chats.length))) ∧
    (getStats exDB9).uncertaintyRate = 75 / 2 := by
  have hgen : ∀ db : DB, (getStats db).uncertaintyRate =
      (if db.chats.length = 0 then 0
       else specRound2
         (100 * ((db.chats.filter (fun c => c.hasUncertainty)).length : ℚ) /
           db.chats.length)) := by
    intro db
    show toFixed2 (if 0 < db.chats.length then
      (((db.chats.filter (fun c => c.hasUncertainty)).length : ℚ) /
        db.chats.length) * 100 else 0) = _
    rcases Nat.eq_zero_or_pos db.chats.length with hz | hp
    · rw [hz]
      norm_num [toFixed2]
    · rw [if_pos hp, if_neg (Nat.pos_iff_ne_zero.mp hp)]
      rw [toFixed2, specRound2, round_eq]
      ring_nf
  refine ⟨hgen, ?_⟩
  rw [hgen exDB9]
  rw [show (exDB9.chats.filter (fun c => c.hasUncertainty)).length = 3 from rfl,
      show exDB9.chats.length = 8 from rfl]
  norm_num [specRound2, round_eq, Int.floor_eq_iff]

/-- C7: every chat summary of a listing page carries as `lastMessage` a
most-recent stored message of that chat by message `createdAt` (ties broken
arbitrarily), and `lastMessage` is absent exactly when the chat has no
stored messages; the summaries are produced from the single batched
`pageMessages` fetch over all chats of the page. -/
theorem C7_lastMessage (db : DB) (q : GetChatsQuery) (e : ChatSummary)
    (he : e ∈ (getChats db q).chats) :
    (e.lastMessage = none ↔ ∀ m ∈ db.messages, m.chatId ≠ e.id) ∧
    (∀ lm, e.lastMessage = some lm →
      ∃ m, m ∈ db.messages ∧ m.chatId = e.id ∧
        lm = { text := m.text, sender := m.sender, time := m.createdAt } ∧
        (∀ m2 ∈ db.messages, m2.chatId = e.id →
          m2.createdAt ≤ m.createdAt)) := by
  obtain ⟨chat, hchat, rfl⟩ := List.mem_map.mp he
  have hid : (formatChat db q chat).id = chat.id := rfl
  have hlm : (formatChat db q chat).lastMessage =
      ((pageMessages db q).find? (fun m => m.chatId == chat.id)).map
        (fun m => { text := m.text, sender := m.sender, time := m.createdAt }) := rfl
  have hcontains : ((pageChats db q).map (fun c => c.id)).contains chat.id = true := by
    have hmm : chat.id ∈ (pageChats db q).map (fun c => c.id) :=
      List.mem_map.mpr ⟨chat, hchat, rfl⟩
    simpa [List.contains] using hmm
  have hmem : ∀ m : ChatMessage, m ∈ pageMessages db q ↔
      (m ∈ db.messages ∧
        ((pageChats db q).map (fun c => c.id)).contains m.chatId = true) := by
    intro m
    unfold pageMessages
    rw [(List.perm_insertionSort msgDesc _).mem_iff, List.mem_filter]
  constructor
  · rw [hlm, hid, Option.map_eq_none', List.find?_eq_none]
    constructor
    · intro hnone m hm hcid
      exact (hnone m ((hmem m).mpr ⟨hm, by rw [hcid]; exact hcontains⟩))
        (by simp [hcid])
    · intro hall m hmP hbeq
      have hcid : m.chatId = chat.id := by simpa using hbeq
      exact hall m ((hmem m).mp hmP).1 hcid
  · intro lm hlm2
    rw [hlm] at hlm2
    obtain ⟨m, hfindm, hview⟩ := Option.map_eq_some'.mp hlm2
    have hmP : m ∈ pageMessages db q := List.mem_of_find?_eq_some hfindm
    have hmdb := ((hmem m).mp hmP).1
    have hcidm : m.chatId = chat.id := by simpa using List.find?_some hfindm
    refine ⟨m, hmdb, by rw [hid]; exact hcidm, hview.symm, ?_⟩
    intro m2 hm2 hcid2
    rw [hid] at hcid2
    have hm2P : m2 ∈ pageMessages db q :=
      (hmem m2).mpr ⟨hm2, by rw [hcid2]; exact hcontains⟩
    have hsorted : (pageMessages db q).Pairwise msgDesc := by
      unfold pageMessages
      exact List.sorted_insertionSort msgDesc _
    rcases find?_pairwise_bound msgDesc _ (pageMessages db q) hsorted m hfindm
      m2 hm2P (by simp [hcid2]) with heq | hle
    · exact heq ▸ le_refl _
    · exact hle

theorem C7_witness :
    ((formatChat exDB {} exChat).lastMessage = none ↔
      ∀ m ∈ exDB.messages, m.chatId ≠ (formatChat exDB {} exChat).id) ∧
    (∀ lm, (formatChat exDB {} exChat).lastMessage = some lm →
      ∃ m, m ∈ exDB.messages ∧ m.chatId = (formatChat exDB {} exChat).id ∧
        lm = { text := m.text, sender := m.sender, time := m.createdAt } ∧
        (∀ m2 ∈ exDB.messages, m2.chatId = (formatChat exDB {} exChat).id →
          m2.createdAt ≤ m.createdAt)) :=
  C7_lastMessage exDB {} (formatChat exDB {} exChat) (by decide)

end AidarDev
